import Mathlib

set_option allowUnsafeReducibility true

attribute [semireducible] Rat.add Rat.mul Rat.sub Rat.div Rat.inv Rat.blt

deriving instance DecidableEq for Except

/-!
Verification of the 3D reconstruction core of BlueprintX-AI
(src/components/Viewer3D.tsx, sample fixture from the application root file).

The reconstruction core is a set of pure functions over plan data (walls,
doors, rooms) producing renderable geometry.  We embed it shallowly:

* JavaScript numeric fields may be a number, NaN, or absent (`undefined`);
  we model the value domain by `JSVal`.  `typeof v === 'number'` is true for
  NaN, which `JSVal.isNumberType` reflects; the stricter
  `typeof v === 'number' && !isNaN(v)` test is `JSVal.isFiniteNumber`.
* Exact rationals stand in for IEEE doubles.  Every comparison the source
  makes between square roots of rationals (`Vector3.distanceTo`,
  `Line3.closestPointToPoint` distances) is carried out here on the squares,
  which is equivalent because `Real.sqrt` is monotone and both sides of each
  source comparison are nonnegative; each definition's comment records the
  exact source comparison it mirrors.
* Lengths that the source stores (wall length, a door's `distFromStart`)
  are square roots of rationals; we store their squares, which determine
  them (both are nonnegative).
* A thrown JavaScript `TypeError` is modelled by `Except.error`; a component
  returning `null` (no geometry) is `Option.none`.
-/

namespace Blueprint

/-- A JavaScript value sitting in a numeric field: a genuine number, `NaN`,
or absent / non-numeric (`undefined`, a string, ...), which the source only
ever inspects through `typeof v === 'number'` and `isNaN(v)`. -/
inductive JSVal where
  | num (q : ℚ)
  | nan
  | undef
deriving DecidableEq, Repr

/-- `typeof v === 'number'` — true for `NaN` as well. -/
def JSVal.isNumberType : JSVal → Bool
  | .num _ => true
  | .nan => true
  | .undef => false

/-- `typeof v === 'number' && !isNaN(v)` — the filter used for room
polygon vertices. -/
def JSVal.isFiniteNumber : JSVal → Bool
  | .num _ => true
  | _ => false

/-- JavaScript truthiness of a numeric field: `0`, `NaN` and `undefined`
are falsy, every other number is truthy. -/
def JSVal.truthy : JSVal → Bool
  | .num q => q != 0
  | .nan => false
  | .undef => false

/-- `v || dflt` on a numeric field: the default replaces any falsy value,
i.e. `undefined`, `NaN` and `0`. -/
def jsOr (v : JSVal) (dflt : ℚ) : ℚ :=
  match v with
  | .num q => if q = 0 then dflt else q
  | _ => dflt

/-- A plan point `{x, y}` whose fields are raw JavaScript values. -/
structure JSPoint where
  x : JSVal
  y : JSVal
deriving DecidableEq, Repr

/-- Source `mapCoord`: maps a normalized plan coordinate to world space via
`(val - 50) / 2`, returning `0` for non-numeric or `NaN` input. -/
def mapCoord : JSVal → ℚ
  | .num q => (q - 50) / 2
  | _ => 0

/-- World-space projection of a plan point to the ground plane: the source
builds `new THREE.Vector3(mapCoord(p.x), 0, mapCoord(p.y))`; the constant
middle coordinate is dropped and we keep the `(x, z)` pair. -/
def mapPoint (p : JSPoint) : ℚ × ℚ :=
  (mapCoord p.x, mapCoord p.y)

/-- Dot product of ground-plane vectors. -/
def dot2 (a b : ℚ × ℚ) : ℚ := a.1 * b.1 + a.2 * b.2

/-- Componentwise difference of ground-plane vectors. -/
def sub2 (a b : ℚ × ℚ) : ℚ × ℚ := (a.1 - b.1, a.2 - b.2)

/-- Squared Euclidean distance; the source's `distanceToSquared`, and the
square of its `distanceTo`. -/
def distSq (a b : ℚ × ℚ) : ℚ := dot2 (sub2 a b) (sub2 a b)

/-- Clamp a parameter to `[0, 1]`. -/
def clamp01 (t : ℚ) : ℚ := max 0 (min 1 t)

/-- The clamped parameter of the closest point on segment `s`–`e` to `p`:
`THREE.Line3.closestPointToPoint(p, true, _)` computes the projection
parameter `dot(p − s, e − s) / lengthSq` and clamps it to `[0, 1]`. -/
def closestParam (s e p : ℚ × ℚ) : ℚ :=
  clamp01 (dot2 (sub2 p s) (sub2 e s) / distSq s e)

/-- The closest point on segment `s`–`e` to `p`. -/
def closestPoint (s e p : ℚ × ℚ) : ℚ × ℚ :=
  (s.1 + closestParam s e p * (e.1 - s.1),
   s.2 + closestParam s e p * (e.2 - s.2))

/-- The door-acceptance filter of `relevantDoors` for a wall with world
endpoints `s`, `e` and a door at world position `p`.  The source compares
Euclidean distances; with `t` the clamped projection parameter and
`L = sqrt (distSq s e)` it rejects when `distToLine > 1.0`, then requires
`distFromStart > 0.5 && distFromStart < length - 0.5` where
`distFromStart = t·L`.  Since all quantities are nonnegative these are
equivalent to the squared comparisons used here:
`distToLineSq ≤ 1`, `t²·lengthSq > 1/4`, and `(1−t)²·lengthSq > 1/4`
(the last because `length − t·length > 1/2 ↔ ((1−t)·length)² > 1/4`). -/
def doorAccepted (s e p : ℚ × ℚ) : Bool :=
  let t := closestParam s e p
  let lsq := distSq s e
  distSq (closestPoint s e p) p ≤ 1 &&
  t ^ 2 * lsq > 1 / 4 &&
  (1 - t) ^ 2 * lsq > 1 / 4

/-- A plan wall record.  The geometry code reads `start`, `end` and
`thickness`; the `type` field is never used for geometry and is omitted. -/
structure Wall where
  id : String
  start : Option JSPoint
  «end» : Option JSPoint
  thickness : JSVal
deriving DecidableEq, Repr

/-- A plan door record. -/
structure Door where
  id : String
  position : Option JSPoint
  width : JSVal
  rotation : JSVal
deriving DecidableEq, Repr

/-- A plan room record.  `suggestedColor` / `colorDescription` are never
read by the geometry code and are omitted. -/
structure Room where
  id : String
  name : String
  polygon : Option (List (Option JSPoint))
  areaSqFt : JSVal
  center : Option JSPoint
deriving DecidableEq, Repr

/-- The message of the `TypeError` thrown when `door.position.x` is read
off a door whose `position` is absent. -/
def doorPositionError : String := "TypeError: cannot read x of undefined door position"

/-- The `relevantDoors` sweep of `WallSegment` for a wall with world
endpoints `s`, `e`: filter the full doors list by `doorAccepted`, then
attach to each survivor its `distFromStart = start.distanceTo(doorPos)`
(stored here as its square).  The source dereferences `door.position.x`
with no presence guard, so a door whose `position` is absent throws. -/
def sweepDoors (s e : ℚ × ℚ) : List Door → Except String (List (Door × ℚ))
  | [] => .ok []
  | d :: rest =>
    match d.position with
    | none => .error doorPositionError
    | some pos =>
      let p := mapPoint pos
      match sweepDoors s e rest with
      | .error msg => .error msg
      | .ok tail =>
        if doorAccepted s e p then .ok ((d, distSq s p) :: tail) else .ok tail

/-- A rectangular hole subtracted from a wall profile.  The source builds
the hole from its left edge `doorLeft = distFromStart − doorW/2` at the
floor line; we record the square of its center `distFromStart` (a
nonnegative square root, hence determined by its square), its width, its
height, and its bottom edge. -/
structure Hole where
  centerSq : ℚ
  width : ℚ
  height : ℚ
  bottom : ℚ
deriving DecidableEq, Repr

/-- The hole cut for one accepted door: width `(door.width || 6) * 0.5`,
height `2.2`, bottom on the floor line, centered at the door's
`distFromStart` (whose square is carried). -/
def holeOfDoor (d : Door) (distFromStartSq : ℚ) : Hole :=
  { centerSq := distFromStartSq
    width := jsOr d.width 6 * (1 / 2)
    height := 22 / 10
    bottom := 0 }

/-- A wall's elevation profile: the rectangle `[0, L] × [0, height]`
(`L = sqrt lengthSq`) with the door holes subtracted. -/
structure WallProfile where
  lengthSq : ℚ
  height : ℚ
  holes : List Hole
deriving DecidableEq, Repr

/-- The solid produced for one wall: profile extruded by `thickness`,
placed at `startW` and rotated by `−atan2(dz, dx)` about the vertical axis
(the rotation is determined by `startW` and `endW`, which are kept). -/
structure WallGeom where
  startW : ℚ × ℚ
  endW : ℚ × ℚ
  lengthSq : ℚ
  thickness : ℚ
  profile : WallProfile
deriving DecidableEq, Repr

/-- Source thickness mapping
`wall.thickness ? Math.min(Math.max(wall.thickness / 5, 0.3), 1.0) : 0.5`:
the clamp applies only to truthy values, so absent, `NaN` and `0` all fall
to the `0.5` default. -/
def thicknessWorld : JSVal → ℚ
  | .num q => if q = 0 then 1 / 2 else min (max (q / 5) (3 / 10)) 1
  | _ => 1 / 2

/-- The `WallSegment` component: no geometry when a `start`/`end` field is
missing or fails `typeof === 'number'`, no geometry when the mapped world
endpoints satisfy `distanceToSquared < 0.01`, otherwise the extruded holed
profile.  The degeneracy early-return precedes the door sweep, so a
degenerate wall never evaluates `relevantDoors`. -/
def wallSegment (w : Wall) (doors : List Door) : Except String (Option WallGeom) :=
  match w.start, w.«end» with
  | some sp, some ep =>
    if sp.x.isNumberType && sp.y.isNumberType && ep.x.isNumberType && ep.y.isNumberType then
      let s := mapPoint sp
      let e := mapPoint ep
      if distSq s e < 1 / 100 then .ok none
      else
        match sweepDoors s e doors with
        | .error msg => .error msg
        | .ok rel =>
          .ok (some
            { startW := s
              endW := e
              lengthSq := distSq s e
              thickness := thicknessWorld w.thickness
              profile :=
                { lengthSq := distSq s e
                  height := 3
                  holes := rel.map (fun dq => holeOfDoor dq.1 dq.2) } })
    else .ok none
  | _, _ => .ok none

/-- The freestanding assembly produced for one door by `DoorMesh`: the full
parametric assembly (jambs, header, casing, leaf, knobs) is determined by
the mapped position, the opening width `(door.width || 6) * 0.5`, the fixed
height `2.2`, and the rotation `−(door.rotation || 0)·π/180` about the
vertical axis (the degree value is kept). -/
structure DoorGeom where
  posW : ℚ × ℚ
  openingWidth : ℚ
  height : ℚ
  rotationDeg : ℚ
deriving DecidableEq, Repr

/-- The `DoorMesh` component: no geometry when `position` is absent or a
coordinate fails `typeof === 'number'` (`NaN` passes), otherwise the
assembly at the mapped position. -/
def doorMesh (d : Door) : Option DoorGeom :=
  match d.position with
  | none => none
  | some p =>
    if p.x.isNumberType && p.y.isNumberType then
      some
        { posW := mapPoint p
          openingWidth := jsOr d.width 6 * (1 / 2)
          height := 22 / 10
          rotationDeg := jsOr d.rotation 0 }
    else none

/-- `RoomFloor`'s vertex filter:
`room.polygon?.filter(p => p && typeof p.x === 'number' && !isNaN(p.x) && typeof p.y === 'number' && !isNaN(p.y)) || []`. -/
def validPoints (r : Room) : List JSPoint :=
  match r.polygon with
  | none => []
  | some ps =>
    ps.filterMap fun op =>
      match op with
      | some p => if p.x.isFiniteNumber && p.y.isFiniteNumber then some p else none
      | none => none

/-- The material parameters of a room floor slab, driven solely by the
highlight flag (`#06b6d4` emissive translucent cyan when highlighted,
opaque `#1e293b` otherwise). -/
structure Material where
  color : String
  opacity : ℚ
  transparent : Bool
  emissive : String
  emissiveIntensity : ℚ
deriving DecidableEq, Repr

/-- The slab material for a given highlight state, field for field as in
the source's `meshStandardMaterial` props. -/
def roomMaterial (isHighlighted : Bool) : Material :=
  if isHighlighted then
    { color := "#06b6d4"
      opacity := 9 / 10
      transparent := true
      emissive := "#06b6d4"
      emissiveIntensity := 3 / 10 }
  else
    { color := "#1e293b"
      opacity := 1
      transparent := false
      emissive := "#000000"
      emissiveIntensity := 0 }

/-- The highlight-independent geometry of a room: the mapped floor outline
(each vertex at `(mapCoord x, −mapCoord y)`), the slab depth `0.1`, and the
label anchor at the mapped center elevated `2.5`. -/
structure RoomGeom where
  shapePts : List (ℚ × ℚ)
  slabDepth : ℚ
  labelPos : ℚ × ℚ
  labelHeight : ℚ
deriving DecidableEq, Repr

/-- What `RoomFloor` renders for one room: its geometry plus the
highlight-driven material. -/
structure RoomRender where
  geom : RoomGeom
  mat : Material
deriving DecidableEq, Repr

/-- The `RoomFloor` component: no geometry when fewer than 3 vertices
survive the filter (`shape` is null) or when `center` is absent or fails
`typeof === 'number'`; otherwise the slab and the label. -/
def roomFloor (r : Room) (isHighlighted : Bool) : Option RoomRender :=
  let vp := validPoints r
  if vp.length < 3 then none
  else
    match r.center with
    | none => none
    | some c =>
      if c.x.isNumberType && c.y.isNumberType then
        some
          { geom :=
              { shapePts := vp.map (fun p => (mapCoord p.x, -(mapCoord p.y)))
                slabDepth := 1 / 10
                labelPos := (mapCoord c.x, mapCoord c.y)
                labelHeight := 5 / 2 }
            mat := roomMaterial isHighlighted }
      else none

/-- The geometric slice of the plan data consumed by `SceneContent`; the
non-geometric fields (costs, renovation, safety, summary) are never read
by the reconstruction core and are omitted. -/
structure BlueprintData where
  walls : List Wall
  doors : List Door
  rooms : List Room
deriving DecidableEq, Repr

/-- The derived scene: wall solids, door assemblies, and room renders. -/
structure Scene where
  walls : List WallGeom
  doors : List DoorGeom
  rooms : List RoomRender
deriving DecidableEq, Repr

/-- The `SceneContent` composer: every wall is rendered with the full doors
list for hole cutting (a throw in any wall aborts the render), every door
through `DoorMesh`, every room through `RoomFloor` with
`isHighlighted = (highlightedRoomId === room.id)`. -/
def buildScene (data : BlueprintData) (highlightedRoomId : Option String) :
    Except String Scene :=
  match data.walls.mapM (fun w => wallSegment w data.doors) with
  | .error msg => .error msg
  | .ok ws =>
    .ok
      { walls := ws.filterMap id
        doors := data.doors.filterMap doorMesh
        rooms := data.rooms.filterMap
          (fun r => roomFloor r (highlightedRoomId == some r.id)) }

/-- Derived query used to state door hosting: the ids of the doors that a
wall's `relevantDoors` sweep accepts (empty when the wall's endpoint fields
are malformed or the sweep throws). -/
def hostedDoorIds (w : Wall) (ds : List Door) : List String :=
  match w.start, w.«end» with
  | some sp, some ep =>
    match sweepDoors (mapPoint sp) (mapPoint ep) ds with
    | .ok l => l.map (fun dq => dq.1.id)
    | .error _ => []
  | _, _ => []

/-- Derived query: how many holes the wall's extruded profile carries
(0 when the wall produces no geometry or the sweep throws). -/
def wallHoleCount (w : Wall) (ds : List Door) : ℕ :=
  match wallSegment w ds with
  | .ok (some g) => g.profile.holes.length
  | _ => 0

/-- The highlight-independent part of a scene: wall solids, door
assemblies, and the geometry (not material) of each room render. -/
def sceneGeomView (s : Scene) : List WallGeom × List DoorGeom × List RoomGeom :=
  (s.walls, s.doors, s.rooms.map (fun rr => rr.geom))

/-! ## The documented sample fixture (`SAMPLE_DATA` in the application root) -/

/-- Sample wall `w1`. -/
def sampleW1 : Wall :=
  { id := "w1", start := some ⟨.num 10, .num 10⟩, «end» := some ⟨.num 90, .num 10⟩
    thickness := .num 2 }

/-- Sample wall `w2`. -/
def sampleW2 : Wall :=
  { id := "w2", start := some ⟨.num 90, .num 10⟩, «end» := some ⟨.num 90, .num 70⟩
    thickness := .num 2 }

/-- Sample wall `w3`. -/
def sampleW3 : Wall :=
  { id := "w3", start := some ⟨.num 90, .num 70⟩, «end» := some ⟨.num 10, .num 70⟩
    thickness := .num 2 }

/-- Sample wall `w4`. -/
def sampleW4 : Wall :=
  { id := "w4", start := some ⟨.num 10, .num 70⟩, «end» := some ⟨.num 10, .num 10⟩
    thickness := .num 2 }

/-- Sample wall `w5`, the vertical divider. -/
def sampleW5 : Wall :=
  { id := "w5", start := some ⟨.num 50, .num 10⟩, «end» := some ⟨.num 50, .num 70⟩
    thickness := .num 1 }

/-- Sample wall `w6`. -/
def sampleW6 : Wall :=
  { id := "w6", start := some ⟨.num 50, .num 40⟩, «end» := some ⟨.num 90, .num 40⟩
    thickness := .num 1 }

/-- Sample door `d1` at plan position `(50, 60)`. -/
def sampleD1 : Door :=
  { id := "d1", position := some ⟨.num 50, .num 60⟩, width := .num 8, rotation := .num 0 }

/-- Sample door `d2` at plan position `(70, 40)`. -/
def sampleD2 : Door :=
  { id := "d2", position := some ⟨.num 70, .num 40⟩, width := .num 6, rotation := .num 90 }

/-- Sample door `d3` at plan position `(25, 70)`. -/
def sampleD3 : Door :=
  { id := "d3", position := some ⟨.num 25, .num 70⟩, width := .num 10, rotation := .num 0 }

/-- Sample room `r1` (Open Office). -/
def sampleR1 : Room :=
  { id := "r1", name := "Open Office"
    polygon := some [some ⟨.num 10, .num 10⟩, some ⟨.num 50, .num 10⟩,
      some ⟨.num 50, .num 70⟩, some ⟨.num 10, .num 70⟩]
    areaSqFt := .num 400, center := some ⟨.num 30, .num 40⟩ }

/-- Sample room `r2` (Meeting Room). -/
def sampleR2 : Room :=
  { id := "r2", name := "Meeting Room"
    polygon := some [some ⟨.num 50, .num 10⟩, some ⟨.num 90, .num 10⟩,
      some ⟨.num 90, .num 40⟩, some ⟨.num 50, .num 40⟩]
    areaSqFt := .num 250, center := some ⟨.num 70, .num 25⟩ }

/-- Sample room `r3` (Lounge). -/
def sampleR3 : Room :=
  { id := "r3", name := "Lounge"
    polygon := some [some ⟨.num 50, .num 40⟩, some ⟨.num 90, .num 40⟩,
      some ⟨.num 90, .num 70⟩, some ⟨.num 50, .num 70⟩]
    areaSqFt := .num 250, center := some ⟨.num 70, .num 55⟩ }

/-- The geometric slice of the application's `SAMPLE_DATA` fixture. -/
def SAMPLE_DATA : BlueprintData :=
  { walls := [sampleW1, sampleW2, sampleW3, sampleW4, sampleW5, sampleW6]
    doors := [sampleD1, sampleD2, sampleD3]
    rooms := [sampleR1, sampleR2, sampleR3] }

/-- The presence guard at the head of `WallSegment`:
`!wall.start || !wall.end || typeof .. !== 'number' ..` — `NaN` passes,
since `typeof NaN === 'number'`. -/
def wallPresenceCheck (w : Wall) : Bool :=
  match w.start, w.«end» with
  | some sp, some ep =>
    sp.x.isNumberType && sp.y.isNumberType && ep.x.isNumberType && ep.y.isNumberType
  | _, _ => false

/-! ## Concrete fixtures used by individual claims -/

/-- An 80-plan-unit horizontal wall (world length 40) used by C1. -/
def c1Wall : Wall :=
  { id := "w", start := some ⟨.num 10, .num 50⟩, «end» := some ⟨.num 90, .num 50⟩
    thickness := .num 2 }

/-- A width-0 door one world unit off `c1Wall`'s line, at projected
distance-along-wall 20. -/
def c1cDoor : Door :=
  { id := "d", position := some ⟨.num 50, .num 52⟩, width := .num 0, rotation := .num 0 }

/-- A width-8 door exactly on `c1Wall`'s line at its midpoint. -/
def c1wDoor : Door :=
  { id := "d", position := some ⟨.num 50, .num 50⟩, width := .num 8, rotation := .num 0 }

/-- First of two parallel walls one world unit apart, used by C4. -/
def c4WallA : Wall :=
  { id := "wa", start := some ⟨.num 10, .num 50⟩, «end» := some ⟨.num 90, .num 50⟩
    thickness := .num 2 }

/-- Second of two parallel walls one world unit apart, used by C4. -/
def c4WallB : Wall :=
  { id := "wb", start := some ⟨.num 10, .num 52⟩, «end» := some ⟨.num 90, .num 52⟩
    thickness := .num 2 }

/-- A door lying exactly between `c4WallA` and `c4WallB`, half a world
unit from each. -/
def c4Door : Door :=
  { id := "dd", position := some ⟨.num 50, .num 51⟩, width := .num 8, rotation := .num 0 }

/-- A wall whose plan endpoints are 0.1 plan units apart: the plan-space
squared distance is exactly 0.01. -/
def c5cWall : Wall :=
  { id := "wc", start := some ⟨.num 0, .num 0⟩, «end» := some ⟨.num (1 / 10), .num 0⟩
    thickness := .num 2 }

/-- An ordinary numeric wall used as the C5 witness input. -/
def c5wWall : Wall :=
  { id := "wd", start := some ⟨.num 10, .num 10⟩, «end» := some ⟨.num 90, .num 10⟩
    thickness := .num 2 }

/-- A door record with no `position` field at all. -/
def c3Door : Door := { id := "dX", position := none, width := .undef, rotation := .undef }

/-- A room keeping only 2 polygon vertices after the NaN filter. -/
def c8Room : Room :=
  { id := "rX", name := "X"
    polygon := some [some ⟨.num 1, .num 1⟩, some ⟨.num 2, .nan⟩, some ⟨.num 3, .num 3⟩]
    areaSqFt := .num 1, center := some ⟨.num 2, .num 2⟩ }

/-- A wall all four of whose coordinate fields are `NaN`. -/
def c10NaNWall : Wall :=
  { id := "wn", start := some ⟨.nan, .nan⟩, «end» := some ⟨.nan, .nan⟩
    thickness := .num 2 }

/-- A wall with one `NaN` coordinate among numeric ones. -/
def c10MixWall : Wall :=
  { id := "wm", start := some ⟨.nan, .num 10⟩, «end» := some ⟨.num 90, .num 10⟩
    thickness := .num 2 }

/-- A door whose position coordinates are both `NaN`. -/
def c10NaNDoor : Door :=
  { id := "dn", position := some ⟨.nan, .nan⟩, width := .num 8, rotation := .num 0 }

/-- A room with one `NaN` vertex among three. -/
def c10Room : Room :=
  { id := "rn", name := "N"
    polygon := some [some ⟨.num 10, .num 10⟩, some ⟨.nan, .num 10⟩, some ⟨.num 20, .num 10⟩]
    areaSqFt := .num 1, center := some ⟨.num 15, .num 10⟩ }

/-! ## Claims -/

/-- C1 (counterexample). The claim says a hosted door's hole is centered at
its projected distance-along-wall `d` with width `(door.width ?? 6) * 0.5`.
For the wall from plan `(10,50)` to `(90,50)` (world `(-20,0)`–`(20,0)`,
length 40) and the width-0 door at plan `(50,52)` (world `(0,1)`,
perpendicular distance exactly 1, projected distance `d = 20`, so
`0.5 < d < 39.5` and the filter accepts it), the built profile's single
hole is centered at `start.distanceTo(doorPos) = sqrt 401` — carried here
as `centerSq = 401 ≠ 400 = d²` — and has width `(0 || 6) * 0.5 = 3`, not
`(0 ?? 6) * 0.5 = 0`.  So the claim fails at this input. -/
theorem C1_counterexample :
    wallSegment c1Wall [c1cDoor] = .ok (some
      { startW := (-20, 0), endW := (20, 0), lengthSq := 1600, thickness := 2 / 5
        profile :=
          { lengthSq := 1600, height := 3
            holes := [{ centerSq := 401, width := 3, height := 22 / 10, bottom := 0 }] } }) ∧
    doorAccepted (-20, 0) (20, 0) (0, 1) = true ∧
    (401 : ℚ) ≠ 20 ^ 2 ∧
    (3 : ℚ) ≠ 0 * (1 / 2) := by
  decide

/-- C1 (amended). For a wall with present, `typeof`-numeric endpoint fields
whose mapped endpoints are not degenerate, and a door with a present
position that the `relevantDoors` filter accepts (perpendicular distance to
the segment at most 1.0 and clamped projected distance strictly between 0.5
and `L − 0.5`, compared here on squares), the profile built for the wall
with that single door contains exactly one rectangular hole, of width
`(door.width || 6) * 0.5`, height `2.2`, bottom edge on the floor line, and
centered at the straight-line distance from the wall's world start to the
door's world position (the square of which is recorded) — which equals the
projected distance `d` exactly when the door lies on the wall's line. -/
theorem C1_theorem (w : Wall) (d : Door) (sp ep pp : JSPoint)
    (hs : w.start = some sp) (he : w.«end» = some ep) (hd : d.position = some pp)
    (hnum : (sp.x.isNumberType && sp.y.isNumberType
              && ep.x.isNumberType && ep.y.isNumberType) = true)
    (hnd : ¬ distSq (mapPoint sp) (mapPoint ep) < 1 / 100)
    (hacc : doorAccepted (mapPoint sp) (mapPoint ep) (mapPoint pp) = true) :
    wallSegment w [d] = .ok (some
      { startW := mapPoint sp
        endW := mapPoint ep
        lengthSq := distSq (mapPoint sp) (mapPoint ep)
        thickness := thicknessWorld w.thickness
        profile :=
          { lengthSq := distSq (mapPoint sp) (mapPoint ep)
            height := 3
            holes := [{ centerSq := distSq (mapPoint sp) (mapPoint pp)
                        width := jsOr d.width 6 * (1 / 2)
                        height := 22 / 10
                        bottom := 0 }] } }) := by
  unfold wallSegment
  rw [hs, he]
  simp only [hnum, if_true]
  rw [if_neg hnd]
  simp [sweepDoors, hd, hacc, holeOfDoor]

/-- C1 (witness): the amended theorem applied to `c1Wall` and the on-line
width-8 door at its midpoint, whose hole is centered at 20 (`centerSq`
400) with width 4. -/
theorem C1_witness :
    wallSegment c1Wall [c1wDoor] = .ok (some
      { startW := (-20, 0), endW := (20, 0), lengthSq := 1600, thickness := 2 / 5
        profile :=
          { lengthSq := 1600, height := 3
            holes := [{ centerSq := 400, width := 4, height := 22 / 10, bottom := 0 }] } }) := by
  have h := C1_theorem c1Wall c1wDoor ⟨.num 10, .num 50⟩ ⟨.num 90, .num 50⟩
    ⟨.num 50, .num 50⟩ rfl rfl rfl (by decide) (by decide) (by decide)
  exact h.trans (by decide)

/-- C2 (counterexample). The claim says a wall with `thickness = 0`
(present) gets the clamped floor `0.3`.  The source's
`wall.thickness ? clamp(..) : 0.5` treats the falsy `0` like an absent
field, so the world thickness is `0.5`, not `0.3`. -/
theorem C2_counterexample :
    thicknessWorld (.num 0) = 1 / 2 ∧ (1 / 2 : ℚ) ≠ 3 / 10 := by
  decide

/-- C2 (amended). World thickness is `clamp(thickness / 5, 0.3, 1.0)` when
`thickness` is a truthy number (numeric, non-`NaN` and non-zero), and
`0.5` when the field is absent, `NaN`, or `0`; in particular
`thickness = 10` gives the clamped ceiling `1.0` and `thickness = 0` gives
`0.5`. -/
theorem C2_theorem :
    (∀ q : ℚ, q ≠ 0 → thicknessWorld (.num q) = min (max (q / 5) (3 / 10)) 1) ∧
    thicknessWorld (.num 0) = 1 / 2 ∧
    thicknessWorld .nan = 1 / 2 ∧
    thicknessWorld .undef = 1 / 2 ∧
    thicknessWorld (.num 10) = 1 := by
  refine ⟨fun q hq => ?_, by decide, rfl, rfl, by decide⟩
  simp [thicknessWorld, hq]

/-- C2 (witness): the amended theorem's clamp branch evaluated at the
nonzero thicknesses 10 (ceiling) and 1 (floor, since `1/5 < 0.3`). -/
theorem C2_witness :
    thicknessWorld (.num 10) = min (max ((10 : ℚ) / 5) (3 / 10)) 1 ∧
    thicknessWorld (.num 1) = min (max ((1 : ℚ) / 5) (3 / 10)) 1 :=
  ⟨C2_theorem.1 10 (by norm_num), C2_theorem.1 1 (by norm_num)⟩

/-- C3. The spec's propagation policy says the core never raises, even for
doors with missing position fields.  But `relevantDoors` reads
`door.position.x` with no presence guard, so as soon as one valid,
non-degenerate wall is rendered alongside a door whose `position` is
absent, wall profile building throws a `TypeError` (modelled as
`Except.error`).  The same door alone is handled: `DoorMesh` guards
`position` and skips it, and with no walls the scene builds fine. -/
theorem C3_theorem :
    buildScene { walls := [sampleW1], doors := [c3Door], rooms := [] } none =
      .error doorPositionError ∧
    doorMesh c3Door = none ∧
    buildScene { walls := [], doors := [c3Door], rooms := [] } none =
      .ok { walls := [], doors := [], rooms := [] } := by
  decide

/-- C4 (counterexample). The claim says a door is hosted by at most one
wall.  `c4Door` sits half a world unit from each of the two parallel walls
`c4WallA` and `c4WallB`, passes both walls' filters, and each wall's
profile receives a cutout for it. -/
theorem C4_counterexample :
    hostedDoorIds c4WallA [c4Door] = ["dd"] ∧
    hostedDoorIds c4WallB [c4Door] = ["dd"] ∧
    wallHoleCount c4WallA [c4Door] = 1 ∧
    wallHoleCount c4WallB [c4Door] = 1 ∧
    c4WallA ≠ c4WallB := by
  decide

/-- C4 (amended). Door-to-wall association is per-wall and independent of
every other wall: a wall with present endpoint fields hosts a door with a
present position precisely when that wall's own acceptance filter passes
(perpendicular distance to the wall's segment at most 1.0 world units and
clamped projected distance strictly between 0.5 and `L − 0.5`, compared on
squares).  There is no nearest-wall selection, so one door may produce
cutouts in several distinct walls. -/
theorem C4_theorem (w : Wall) (d : Door) (sp ep pp : JSPoint)
    (hs : w.start = some sp) (he : w.«end» = some ep) (hd : d.position = some pp) :
    hostedDoorIds w [d] =
      if doorAccepted (mapPoint sp) (mapPoint ep) (mapPoint pp) then [d.id] else [] := by
  unfold hostedDoorIds
  rw [hs, he]
  by_cases hacc : doorAccepted (mapPoint sp) (mapPoint ep) (mapPoint pp) = true <;>
    simp [sweepDoors, hd, hacc]

/-- C4 (witness): the amended theorem applied to `c4WallB` and `c4Door`,
whose filter accepts, giving the hosted id list `["dd"]`. -/
theorem C4_witness : hostedDoorIds c4WallB [c4Door] = ["dd"] := by
  have h := C4_theorem c4WallB c4Door ⟨.num 10, .num 52⟩ ⟨.num 90, .num 52⟩
    ⟨.num 50, .num 51⟩ rfl rfl rfl
  exact h.trans (by decide)

/-- C5 (counterexample). The claim puts the degeneracy epsilon at squared
distance `0.01` in *plan* units.  `c5cWall`'s endpoints are 0.1 plan units
apart — plan-space squared distance exactly `0.01`, not below it — yet the
builder drops the wall, because the source compares
`start.distanceToSquared(end) < 0.01` on the *mapped world* endpoints,
which are only 0.05 world units apart. -/
theorem C5_counterexample :
    wallSegment c5cWall [] = .ok none ∧
    ((0 : ℚ) - 1 / 10) ^ 2 + ((0 : ℚ) - 0) ^ 2 = 1 / 100 ∧
    ¬ (((0 : ℚ) - 1 / 10) ^ 2 + ((0 : ℚ) - 0) ^ 2 < 1 / 100) := by
  decide

/-- C5 (amended). The degeneracy test is `distanceToSquared < 0.01` in
world units, applied to the mapped endpoints.  For a wall with fully
numeric endpoint fields the world coordinates are the plan coordinates
scaled by one half, so the wall is dropped — emits no geometry — exactly
when the plan-space squared distance is below `0.04` plan units². -/
theorem C5_theorem (w : Wall) (sx sy ex ey : ℚ)
    (hs : w.start = some ⟨.num sx, .num sy⟩) (he : w.«end» = some ⟨.num ex, .num ey⟩) :
    wallSegment w [] = .ok none ↔ (sx - ex) ^ 2 + (sy - ey) ^ 2 < 1 / 25 := by
  unfold wallSegment
  rw [hs, he]
  have hd : distSq (mapPoint ⟨.num sx, .num sy⟩) (mapPoint ⟨.num ex, .num ey⟩)
      = ((sx - ex) ^ 2 + (sy - ey) ^ 2) / 4 := by
    simp only [distSq, dot2, sub2, mapPoint, mapCoord]
    ring
  simp only [JSVal.isNumberType, Bool.and_self, if_true, hd]
  split_ifs with h
  · constructor
    · intro _
      linarith
    · intro _
      trivial
  · simp only [sweepDoors]
    constructor
    · intro hcontra
      exact absurd hcontra (by simp)
    · intro hlt
      exact absurd (by linarith : ((sx - ex) ^ 2 + (sy - ey) ^ 2) / 4 < 1 / 100) h

/-- C5 (witness): the amended theorem at a wall 80 plan units long, whose
plan squared distance 6400 is far above the threshold. -/
theorem C5_witness :
    wallSegment c5wWall [] = .ok none ↔
      ((10 : ℚ) - 90) ^ 2 + ((10 : ℚ) - 10) ^ 2 < 1 / 25 :=
  C5_theorem c5wWall 10 10 90 10 rfl rfl

/-- C6. On the documented sample fixture, the scene has exactly 6 wall
solids, 3 door assemblies and 3 room renders, and door `d1` is accepted by
the divider `w5`'s sweep and by no other wall's (the only other hostings
are `d3` on `w3` and `d2` on `w6`). -/
theorem C6_theorem :
    (buildScene SAMPLE_DATA none).map
        (fun s => (s.walls.length, s.doors.length, s.rooms.length)) = .ok (6, 3, 3) ∧
    hostedDoorIds sampleW5 SAMPLE_DATA.doors = ["d1"] ∧
    hostedDoorIds sampleW1 SAMPLE_DATA.doors = [] ∧
    hostedDoorIds sampleW2 SAMPLE_DATA.doors = [] ∧
    hostedDoorIds sampleW3 SAMPLE_DATA.doors = ["d3"] ∧
    hostedDoorIds sampleW4 SAMPLE_DATA.doors = [] ∧
    hostedDoorIds sampleW6 SAMPLE_DATA.doors = ["d2"] := by
  decide

/-- C7. The coordinate mapper returns 0 for `NaN` and for non-numeric
input, and maps every genuine number `v` to `(v − 50) / 2`; in particular
`map(50) = 0`, `map(0) = −25`, `map(100) = 25`. -/
theorem C7_theorem :
    mapCoord .nan = 0 ∧
    mapCoord .undef = 0 ∧
    mapCoord (.num 50) = 0 ∧
    mapCoord (.num 0) = -25 ∧
    mapCoord (.num 100) = 25 ∧
    ∀ q : ℚ, mapCoord (.num q) = (q - 50) / 2 := by
  refine ⟨rfl, rfl, by decide, by decide, by decide, fun q => rfl⟩

/-- C8. A room that keeps fewer than 3 polygon vertices after the
numeric/NaN filter, or whose center is absent or fails the `typeof`
check, produces no floor slab and no label, under either highlight
state. -/
theorem C8_theorem (r : Room) (b : Bool)
    (h : (validPoints r).length < 3 ∨ r.center = none ∨
      ∃ c, r.center = some c ∧ (c.x.isNumberType && c.y.isNumberType) = false) :
    roomFloor r b = none := by
  by_cases hl : (validPoints r).length < 3
  · simp [roomFloor, hl]
  · rcases h with h | h | ⟨c, hc, hcn⟩
    · exact absurd h hl
    · simp [roomFloor, hl, h]
    · simp [roomFloor, hl, hc, hcn]

/-- C8 (witness): the theorem applied to a room retaining only 2 valid
vertices. -/
theorem C8_witness : roomFloor c8Room false = none :=
  C8_theorem c8Room false (Or.inl (by decide))

/-- Auxiliary: a room's rendered geometry does not depend on the highlight
flag — only the material does. -/
theorem roomFloor_map_geom (r : Room) (b c : Bool) :
    (roomFloor r b).map (fun rr => rr.geom) = (roomFloor r c).map (fun rr => rr.geom) := by
  unfold roomFloor
  by_cases hl : (validPoints r).length < 3
  · simp [hl]
  · cases hc : r.center with
    | none => simp [hl]
    | some p => by_cases hn : (p.x.isNumberType && p.y.isNumberType) = true <;> simp [hl, hn]

/-- C9. For fixed plan data, changing only the highlighted-room selection
leaves the scene's wall solids, door assemblies, and room geometry (floor
outline, slab, label anchor) unchanged — only room materials may differ —
and rebuilding with the same selection yields the identical scene. -/
theorem C9_theorem (data : BlueprintData) (h1 h2 : Option String) :
    (buildScene data h1).map sceneGeomView = (buildScene data h2).map sceneGeomView ∧
    buildScene data h1 = buildScene data h1 := by
  refine ⟨?_, rfl⟩
  unfold buildScene
  cases hws : data.walls.mapM (fun w => wallSegment w data.doors) with
  | error msg => rfl
  | ok ws =>
    simp only [Except.map, sceneGeomView]
    rw [List.map_filterMap, List.map_filterMap]
    exact congrArg (fun x => Except.ok (ws.filterMap id, data.doors.filterMap doorMesh, x))
      (List.filterMap_congr fun r _ => roomFloor_map_geom r _ _)

/-- C10 (counterexample). The claim says an entity with present-but-`NaN`
coordinate fields passes the presence checks and produces full geometry at
mapped coordinate 0 rather than being skipped.  A wall all four of whose
coordinates are `NaN` does pass the presence guard (`typeof NaN ===
'number'`), but both endpoints then map to the world origin, the
degeneracy test fires, and the wall is skipped — no geometry. -/
theorem C10_counterexample :
    wallPresenceCheck c10NaNWall = true ∧ wallSegment c10NaNWall [] = .ok none := by
  decide

/-- C10 (amended). `NaN` coordinate fields pass the `typeof`-only presence
checks of the wall and door builders and are mapped to world coordinate 0
(the image of plan coordinate 50): a door with `NaN` position produces its
full assembly at the world origin, and a wall with a `NaN` coordinate
produces full geometry with that coordinate mapped to 0 — unless its two
mapped endpoints then fall within the degeneracy epsilon (as for the
all-`NaN` wall), in which case it is skipped.  Only room polygon vertices
are additionally filtered with an `isNaN` check. -/
theorem C10_theorem :
    wallPresenceCheck c10NaNWall = true ∧
    wallSegment c10NaNWall [] = .ok none ∧
    doorMesh c10NaNDoor = some
      { posW := (0, 0), openingWidth := 4, height := 22 / 10, rotationDeg := 0 } ∧
    mapCoord (.num 50) = 0 ∧
    wallSegment c10MixWall [] = .ok (some
      { startW := (0, -20), endW := (20, -20), lengthSq := 400, thickness := 2 / 5
        profile := { lengthSq := 400, height := 3, holes := [] } }) ∧
    validPoints c10Room = [⟨.num 10, .num 10⟩, ⟨.num 20, .num 10⟩] := by
  decide

end Blueprint

